import Mathlib

/-!
Shallow embedding of the object-detection serving layer (`src/app.py`).

The repository wraps an external YOLO detection engine behind a FastAPI
endpoint.  The serving layer itself consists of:

* module-level startup code binding the global `model` (an engine handle or
  `None` when loading failed),
* `detect_objects` (`POST /detect`): model-availability check, content-type
  check, image decode + `convert('RGB')`, one engine call with
  `conf=0.25, iou=0.45`, and a normalization loop shaping the raw boxes into
  the JSON response,
* `health_check` (`GET /health`).

The external collaborators (the YOLO engine and PIL's image decoding) are
embedded as explicit parameters: an engine handle carries its class-name
table and an inference function, and the decoder is a function from the
uploaded bytes to either a decoded image or a failure message.  Numeric
tensor values are embedded as rationals; the serving layer only copies them,
so no floating-point arithmetic is performed anywhere in the embedded code.

To state claims about which steps run (decode attempted or not, engine
invoked how many times and with which thresholds), `detect_objects` also
returns the trace of those effects as a list of events.
-/

/-- Uploaded payload bytes (opaque to the serving layer). -/
abbrev Bytes := List Nat

/-- A decoded in-memory image as produced by `PIL.Image.open`:
integer width and height plus a channel mode such as "RGB", "RGBA", "L". -/
structure PILImage where
  width : Nat
  height : Nat
  mode : String
deriving DecidableEq, Repr

/-- PIL's `Image.convert('RGB')` as used on line 84 of `app.py`:
re-encodes the pixel data into fixed 3-channel RGB order.  Per the
library's contract (the spec's §4.2 external collaborator), conversion
changes only the channel mode, never the width or height. -/
def convertRGB (img : PILImage) : PILImage :=
  { img with mode := "RGB" }

/-- One raw detection box emitted by the engine (`result.boxes` element):
`box.cls[0]` as an integer class index, `box.conf[0]` as the confidence,
and `box.xywh[0]` as the center-x/center-y/width/height coordinates in
pixel units.  The serving loop iterates `box.xywh[0]`, so the geometry is
embedded as the list of its coordinates. -/
structure Box where
  cls : Nat
  conf : ℚ
  xywh : List ℚ
deriving DecidableEq, Repr

/-- One element of the `results` sequence returned by the engine call;
its `boxes` attribute may be `None`. -/
structure YOLOResult where
  boxes : Option (List Box)
deriving DecidableEq, Repr

/-- The engine handle produced by `YOLO(MODEL_PATH)`:
`names` is the class-index-to-name dictionary (`model.names`), embedded as
an association list with lookup-by-key semantics, and `infer` is the
inference call `model(image, conf=..., iou=...)`, which either returns the
results sequence or raises (embedded as `Except.error` carrying the
exception text). -/
structure YOLOModel where
  names : List (Nat × String)
  infer : PILImage → ℚ → ℚ → Except String (List YOLOResult)

/-- One normalized prediction record as built on lines 100-104 of
`app.py`: resolved class name, copied confidence, copied bbox
(center-x, center-y, width, height, pixel units). -/
structure Prediction where
  class_name : String
  confidence : ℚ
  bbox : List ℚ
deriving DecidableEq, Repr

/-- The success payload of `/detect` (line 108 of `app.py`):
`{"predictions": [...], "status": "success"}`. -/
structure DetectionResponse where
  predictions : List Prediction
  status : String
deriving DecidableEq, Repr

/-- The outcome of one `/detect` request as seen by the client:
a success payload, a structured `HTTPException` with status code and
detail, or an exception escaping the endpoint unhandled (`fault`). -/
inductive Response where
  | ok (body : DetectionResponse)
  | httpError (status_code : Nat) (detail : String)
  | fault (msg : String)
deriving DecidableEq, Repr

/-- The multipart upload as the endpoint sees it: a declared content type
(absent when the part carries no Content-Type header, in which case
Starlette reports `None`) and the payload bytes from `file.read()`. -/
structure UploadFile where
  content_type : Option String
  contents : Bytes
deriving DecidableEq, Repr

/-- Observable effects of one `/detect` request, recorded in order:
an attempt to decode the uploaded bytes, and an invocation of the
engine's inference call with the threshold arguments passed to it. -/
inductive Event where
  | decodeAttempt
  | engineCall (conf : ℚ) (iou : ℚ)
deriving DecidableEq, Repr

/-- Whether an event is an engine invocation. -/
def Event.isEngineCall : Event → Bool
  | .engineCall _ _ => true
  | .decodeAttempt => false

/-- Python's `str.startswith(pre)` on line 74 of `app.py`: true iff `pre`
is a prefix of `s`, character by character. -/
def strStartsWith (s pre : String) : Bool :=
  pre.data.isPrefixOf s.data

/-- Normalization of one raw box (loop body, lines 96-105 of `app.py`):
resolve `cls` via direct dictionary lookup in `model.names` (a missing key
raises `KeyError`, embedded as `Except.error`), copy the confidence, copy
the four geometry values unchanged. -/
def normalizeBox (names : List (Nat × String)) (b : Box) : Except String Prediction :=
  match names.lookup b.cls with
  | none => .error ("KeyError: " ++ toString b.cls)
  | some name => .ok { class_name := name, confidence := b.conf, bbox := b.xywh }

/-- Flattening of the nested result loop (lines 93-95 of `app.py`):
`for result in results: if result.boxes is not None: for box in result.boxes`,
in emission order. -/
def resultBoxes : List YOLOResult → List Box
  | [] => []
  | r :: rs =>
      (match r.boxes with
       | none => []
       | some bs => bs) ++ resultBoxes rs

/-- The normalization loop over the flattened boxes: boxes are processed
left to right, each appended in order; a lookup failure raises out of the
loop (the partially built list is discarded by the surrounding handler). -/
def normalizeBoxes (names : List (Nat × String)) : List Box → Except String (List Prediction)
  | [] => .ok []
  | b :: bs =>
      match normalizeBox names b with
      | .error e => .error e
      | .ok p =>
          match normalizeBoxes names bs with
          | .error e => .error e
          | .ok ps => .ok (p :: ps)

/-- The `/detect` endpoint (`detect_objects`, lines 66-112 of `app.py`),
with the global `model` and the PIL decoder passed explicitly.  Returns the
client-visible outcome together with the trace of decode attempts and
engine invocations.

Control flow mirrors the source: the `model is None` check and the
content-type check precede the `try` block, so a failure there is either a
structured `HTTPException` (model missing → 500, non-image type → 400) or,
when `file.content_type` is `None`, an `AttributeError` from
`None.startswith` that escapes the endpoint unhandled.  Inside the `try`,
the bytes are decoded and converted to RGB, the engine is called once with
`conf=0.25, iou=0.45`, the results are normalized, and any exception is
converted to a 500 whose detail embeds the exception text. -/
def detect_objects (model : Option YOLOModel)
    (imageOpen : Bytes → Except String PILImage)
    (file : UploadFile) : Response × List Event :=
  match model with
  | none => (.httpError 500 "Model not loaded. Please check server logs.", [])
  | some m =>
      match file.content_type with
      | none => (.fault "AttributeError: NoneType object has no attribute startswith", [])
      | some ct =>
          if strStartsWith ct "image/" then
            match imageOpen file.contents with
            | .error e => (.httpError 500 ("Detection failed: " ++ e), [.decodeAttempt])
            | .ok pil =>
                let image := convertRGB pil
                match m.infer image (25/100) (45/100) with
                | .error e =>
                    (.httpError 500 ("Detection failed: " ++ e),
                     [.decodeAttempt, .engineCall (25/100) (45/100)])
                | .ok results =>
                    match normalizeBoxes m.names (resultBoxes results) with
                    | .error e =>
                        (.httpError 500 ("Detection failed: " ++ e),
                         [.decodeAttempt, .engineCall (25/100) (45/100)])
                    | .ok preds =>
                        (.ok { predictions := preds, status := "success" },
                         [.decodeAttempt, .engineCall (25/100) (45/100)])
          else
            (.httpError 400 "File must be an image (JPG, PNG, JPEG, WebP)", [])

/-- The `/health` response payload (lines 117-121 of `app.py`). -/
structure HealthResponse where
  status : String
  model_loaded : Bool
  model_classes : Nat
deriving DecidableEq, Repr

/-- The `/health` endpoint (`health_check`, lines 114-121 of `app.py`):
reports `"healthy"`, whether the global `model` is bound, and
`len(model.names)` when it is (else 0). -/
def health_check (model : Option YOLOModel) : HealthResponse :=
  { status := "healthy"
    model_loaded := model.isSome
    model_classes :=
      match model with
      | some m => m.names.length
      | none => 0 }

/-- Process state shared across requests: the global `model` binding
(set once by the startup code on lines 51-59 of `app.py`). -/
abbrev ServerState := Option YOLOModel

/-- One `/detect` request as a state transition: the handler body contains
no assignment to the global `model`, so the state passes through. -/
def detect_step (s : ServerState) (imageOpen : Bytes → Except String PILImage)
    (file : UploadFile) : (Response × List Event) × ServerState :=
  (detect_objects s imageOpen file, s)

/-- One `/health` request as a state transition: read-only. -/
def health_step (s : ServerState) : HealthResponse × ServerState :=
  (health_check s, s)

/-- One `GET /` request as a state transition: serves the static page,
touching no model state. -/
def root_step (s : ServerState) : String × ServerState :=
  ("static/index.html", s)

/-! ### Concrete fixtures used by witnesses -/

/-- The stub detection of the spec's §8 example: class index 2,
confidence 0.87, bbox [100, 150, 40, 60]. -/
def stubBox : Box :=
  { cls := 2, conf := 87/100, xywh := [100, 150, 40, 60] }

/-- A fixed engine stub whose class table maps index 2 to "cat" and whose
inference call deterministically emits the single stub detection. -/
def stubEngine : YOLOModel :=
  { names := [(0, "dog"), (1, "bird"), (2, "cat")]
    infer := fun _ _ _ => .ok [{ boxes := some [stubBox] }] }

/-- A decoder stub that succeeds with a fixed 640x480 RGB image. -/
def stubOpen : Bytes → Except String PILImage :=
  fun _ => .ok { width := 640, height := 480, mode := "RGB" }

/-- A decoder stub that fails the way PIL does on undecodable bytes. -/
def failOpen : Bytes → Except String PILImage :=
  fun _ => .error "cannot identify image file"

/-- An upload declaring an image content type. -/
def stubFile : UploadFile :=
  { content_type := some "image/jpeg", contents := [] }

/-- The normalized prediction the stub detection must map to. -/
def catPred : Prediction :=
  { class_name := "cat", confidence := 87/100, bbox := [100, 150, 40, 60] }

/-! ### Helper lemmas (shared) -/

/-- Unfolding `detect_objects` for a request that reaches the `try` block
with an image content type. -/
lemma detect_objects_image_ct (m : YOLOModel)
    (imageOpen : Bytes → Except String PILImage) (file : UploadFile)
    (ct : String) (hct : file.content_type = some ct)
    (hpre : strStartsWith ct "image/" = true) :
    detect_objects (some m) imageOpen file =
      match imageOpen file.contents with
      | .error e => (.httpError 500 ("Detection failed: " ++ e), [.decodeAttempt])
      | .ok pil =>
          match m.infer (convertRGB pil) (25/100) (45/100) with
          | .error e =>
              (.httpError 500 ("Detection failed: " ++ e),
               [.decodeAttempt, .engineCall (25/100) (45/100)])
          | .ok results =>
              match normalizeBoxes m.names (resultBoxes results) with
              | .error e =>
                  (.httpError 500 ("Detection failed: " ++ e),
                   [.decodeAttempt, .engineCall (25/100) (45/100)])
              | .ok preds =>
                  (.ok { predictions := preds, status := "success" },
                   [.decodeAttempt, .engineCall (25/100) (45/100)]) := by
  unfold detect_objects
  rw [hct]
  simp only [hpre, if_true]

/-- `normalizeBoxes` succeeds with a list of the same length as its input,
and each output entry is the normalization of the input entry at the same
index (order preserved, nothing dropped). -/
lemma normalizeBoxes_length_and_order (names : List (Nat × String)) :
    ∀ (bs : List Box) (ps : List Prediction), normalizeBoxes names bs = .ok ps →
      ps.length = bs.length ∧
      ∀ (i : Nat) (hi : i < ps.length) (hb : i < bs.length),
        normalizeBox names (bs.get ⟨i, hb⟩) = .ok (ps.get ⟨i, hi⟩) := by
  intro bs
  induction bs with
  | nil =>
      intro ps h
      simp only [normalizeBoxes] at h
      cases h
      exact ⟨rfl, fun i hi => absurd hi (by simp)⟩
  | cons b bs ih =>
      intro ps h
      simp only [normalizeBoxes] at h
      cases hb : normalizeBox names b with
      | error e => rw [hb] at h; cases h
      | ok p =>
          rw [hb] at h
          cases hrec : normalizeBoxes names bs with
          | error e => rw [hrec] at h; cases h
          | ok ps' =>
              rw [hrec] at h
              cases h
              obtain ⟨hlen, hidx⟩ := ih ps' hrec
              refine ⟨by simp [hlen], ?_⟩
              intro i hi hcons
              cases i with
              | zero => simpa using hb
              | succ j =>
                  have hj : j < ps'.length := by
                    simpa using hi
                  have hjb : j < bs.length := by
                    simpa using hcons
                  simpa using hidx j hj hjb

/-! ### Claim theorems -/

/-- C4: when the engine handle is absent, every `/detect` request — for any
decoder behavior, content type, and payload — returns the 500
model-not-loaded error, and the event trace is empty: no decode of the
uploaded bytes is attempted before or after the availability check. -/
theorem unloaded_model_fails_fast_without_decode :
    ∀ (imageOpen : Bytes → Except String PILImage) (file : UploadFile),
      detect_objects none imageOpen file
        = (.httpError 500 "Model not loaded. Please check server logs.", []) := by
  intro imageOpen file
  rfl

/-- C5: with a loaded engine, an upload whose declared content type does not
start with "image/" is answered with the 400 client error, and the event
trace is empty: no decode is attempted and the engine is never invoked. -/
theorem non_image_content_type_rejected_before_decode :
    ∀ (m : YOLOModel) (imageOpen : Bytes → Except String PILImage)
      (file : UploadFile) (ct : String),
      file.content_type = some ct →
      strStartsWith ct "image/" = false →
      detect_objects (some m) imageOpen file
        = (.httpError 400 "File must be an image (JPG, PNG, JPEG, WebP)", []) := by
  intro m imageOpen file ct hct hpre
  unfold detect_objects
  rw [hct]
  simp only [hpre, if_false, Bool.false_eq_true]

/-- C5 witness: a `text/plain` upload against the stub engine is rejected
with the 400 error and an empty trace. -/
theorem non_image_content_type_rejected_before_decode_witness :
    detect_objects (some stubEngine) stubOpen
        { content_type := some "text/plain", contents := [] }
      = (.httpError 400 "File must be an image (JPG, PNG, JPEG, WebP)", []) :=
  non_image_content_type_rejected_before_decode stubEngine stubOpen
    { content_type := some "text/plain", contents := [] } "text/plain" rfl (by decide)

/-- C7: `/health` is a pure read-only query: with a loaded engine it reports
status "healthy", `model_loaded = true` and `model_classes` equal to the
number of class names the engine exposes; with no engine it reports
`model_loaded = false` and `model_classes = 0`; and in both cases the
request leaves the process state unchanged (no side effects). -/
theorem health_reports_model_state :
    (∀ (m : YOLOModel),
        health_check (some m)
          = { status := "healthy", model_loaded := true,
              model_classes := m.names.length })
    ∧ health_check none
        = { status := "healthy", model_loaded := false, model_classes := 0 }
    ∧ ∀ (s : ServerState), (health_step s).2 = s := by
  refine ⟨fun m => rfl, rfl, fun s => rfl⟩

/-- C8: a successfully decoded upload, once converted, is in the fixed
3-channel "RGB" mode regardless of the source encoding's mode
(transparency "RGBA" and grayscale "L" included), and the conversion
preserves the decoded width and height. -/
theorem decode_then_convert_normalizes_mode_preserving_size :
    ∀ (imageOpen : Bytes → Except String PILImage) (bs : Bytes) (img : PILImage),
      imageOpen bs = .ok img →
      (convertRGB img).mode = "RGB"
      ∧ (convertRGB img).width = img.width
      ∧ (convertRGB img).height = img.height := by
  intro imageOpen bs img h
  exact ⟨rfl, rfl, rfl⟩

/-- C8 witness: a decoder producing a 640x480 RGBA image; conversion yields
RGB mode at the same 640x480 size. -/
theorem decode_then_convert_normalizes_mode_preserving_size_witness :
    (fun (_ : Bytes) => (.ok { width := 640, height := 480, mode := "RGBA" }
        : Except String PILImage)) [] = .ok { width := 640, height := 480, mode := "RGBA" }
    ∧ ((convertRGB { width := 640, height := 480, mode := "RGBA" }).mode = "RGB"
       ∧ (convertRGB { width := 640, height := 480, mode := "RGBA" }).width
           = ({ width := 640, height := 480, mode := "RGBA" } : PILImage).width
       ∧ (convertRGB { width := 640, height := 480, mode := "RGBA" }).height
           = ({ width := 640, height := 480, mode := "RGBA" } : PILImage).height) :=
  ⟨rfl, decode_then_convert_normalizes_mode_preserving_size
      (fun _ => .ok { width := 640, height := 480, mode := "RGBA" }) []
      { width := 640, height := 480, mode := "RGBA" } rfl⟩

/-- C9: after startup initialization, every request-handling operation —
`/detect`, `/health`, and `/` — leaves the process state (the engine handle
with its class-name mapping) exactly as it was: the handlers only read the
global binding and never reassign or mutate it. -/
theorem engine_handle_read_only_across_requests :
    ∀ (s : ServerState) (imageOpen : Bytes → Except String PILImage)
      (file : UploadFile),
      (detect_step s imageOpen file).2 = s
      ∧ (health_step s).2 = s
      ∧ (root_step s).2 = s := by
  intro s imageOpen file
  exact ⟨rfl, rfl, rfl⟩

/-- C10: with a loaded engine, an upload that declares no content type at
all makes the `None.startswith` access raise outside the try block: the
request ends in an unhandled fault, not in the structured 400 client error
used for non-image content types. -/
theorem missing_content_type_is_unhandled_fault :
    ∀ (m : YOLOModel) (imageOpen : Bytes → Except String PILImage) (bs : Bytes),
      detect_objects (some m) imageOpen { content_type := none, contents := bs }
        = (.fault "AttributeError: NoneType object has no attribute startswith", [])
      ∧ ∀ (code : Nat) (detail : String),
          (detect_objects (some m) imageOpen
              { content_type := none, contents := bs }).1
            ≠ .httpError code detail := by
  intro m imageOpen bs
  refine ⟨rfl, fun code detail h => ?_⟩
  simp only [detect_objects] at h
  cases h

/-- C1: each normalized prediction is built from its raw detection by
direct class-name lookup, copying the confidence and the four
center-x/center-y/width/height geometry values unchanged; and for the
fixed engine stub emitting one detection (class index 2 → "cat",
confidence 0.87, bbox [100,150,40,60]) the endpoint response is exactly
the success payload with that single prediction. -/
theorem raw_detection_normalization_and_stub_response :
    (∀ (names : List (Nat × String)) (b : Box) (name : String),
        names.lookup b.cls = some name →
        normalizeBox names b
          = .ok { class_name := name, confidence := b.conf, bbox := b.xywh })
    ∧ detect_objects (some stubEngine) stubOpen stubFile
        = (.ok { predictions := [catPred], status := "success" },
           [.decodeAttempt, .engineCall (25/100) (45/100)]) := by
  constructor
  · intro names b name h
    simp [normalizeBox, h]
  · rfl

/-- C1 witness: the stub engine's table resolves the stub box's class
index 2 to "cat", and normalizing the stub box copies its confidence and
geometry unchanged. -/
theorem raw_detection_normalization_and_stub_response_witness :
    stubEngine.names.lookup stubBox.cls = some "cat"
    ∧ normalizeBox stubEngine.names stubBox
        = .ok { class_name := "cat", confidence := stubBox.conf,
                bbox := stubBox.xywh } :=
  ⟨rfl, raw_detection_normalization_and_stub_response.1 stubEngine.names stubBox "cat" rfl⟩

/-- C2: on every successful `/detect` request, the response holds exactly
one normalized prediction per raw detection emitted by the engine, in the
engine's emission order, each derived by normalization of the raw
detection at the same position — nothing dropped, deduplicated, or
re-filtered by the serving layer. -/
theorem response_count_matches_engine_output :
    ∀ (m : YOLOModel) (imageOpen : Bytes → Except String PILImage)
      (file : UploadFile) (ct : String) (pil : PILImage)
      (results : List YOLOResult) (body : DetectionResponse) (evs : List Event),
      file.content_type = some ct →
      strStartsWith ct "image/" = true →
      imageOpen file.contents = .ok pil →
      m.infer (convertRGB pil) (25/100) (45/100) = .ok results →
      detect_objects (some m) imageOpen file = (.ok body, evs) →
      body.predictions.length = (resultBoxes results).length
      ∧ ∀ (i : Nat) (hi : i < body.predictions.length)
          (hb : i < (resultBoxes results).length),
          normalizeBox m.names ((resultBoxes results).get ⟨i, hb⟩)
            = .ok (body.predictions.get ⟨i, hi⟩) := by
  intro m imageOpen file ct pil results body evs hct hpre hio hinf hdet
  rw [detect_objects_image_ct m imageOpen file ct hct hpre] at hdet
  simp only [hio, hinf] at hdet
  cases hn : normalizeBoxes m.names (resultBoxes results) with
  | error e =>
      simp only [hn] at hdet
      exact Response.noConfusion (congrArg Prod.fst hdet)
  | ok preds =>
      simp only [hn] at hdet
      injection hdet with h1 h2
      injection h1 with h3
      subst h3
      exact normalizeBoxes_length_and_order m.names (resultBoxes results) preds hn

/-- C2 witness: against the stub engine emitting one raw detection, the
response holds exactly one prediction. -/
theorem response_count_matches_engine_output_witness :
    detect_objects (some stubEngine) stubOpen stubFile
      = (.ok { predictions := [catPred], status := "success" },
         [.decodeAttempt, .engineCall (25/100) (45/100)])
    ∧ [catPred].length = (resultBoxes [{ boxes := some [stubBox] }]).length :=
  ⟨rfl, (response_count_matches_engine_output stubEngine stubOpen stubFile
      "image/jpeg" { width := 640, height := 480, mode := "RGB" }
      [{ boxes := some [stubBox] }]
      { predictions := [catPred], status := "success" }
      [.decodeAttempt, .engineCall (25/100) (45/100)] rfl rfl rfl rfl rfl).1⟩

/-- C3: with a loaded engine and an image content type, a decoding failure
or an engine inference failure is caught at the endpoint boundary and
becomes a structured 500 response whose detail embeds the underlying
failure text; the request never ends in an unhandled fault. -/
theorem decode_and_inference_failures_become_500 :
    ∀ (m : YOLOModel) (imageOpen : Bytes → Except String PILImage)
      (file : UploadFile) (ct : String),
      file.content_type = some ct →
      strStartsWith ct "image/" = true →
      ((∀ (e : String), imageOpen file.contents = .error e →
          detect_objects (some m) imageOpen file
            = (.httpError 500 ("Detection failed: " ++ e), [.decodeAttempt]))
       ∧ (∀ (pil : PILImage) (e : String),
            imageOpen file.contents = .ok pil →
            m.infer (convertRGB pil) (25/100) (45/100) = .error e →
            detect_objects (some m) imageOpen file
              = (.httpError 500 ("Detection failed: " ++ e),
                 [.decodeAttempt, .engineCall (25/100) (45/100)]))
       ∧ ∀ (s : String), (detect_objects (some m) imageOpen file).1 ≠ .fault s) := by
  intro m imageOpen file ct hct hpre
  rw [detect_objects_image_ct m imageOpen file ct hct hpre]
  refine ⟨?_, ?_, ?_⟩
  · intro e he
    simp only [he]
  · intro pil e hio hinf
    simp only [hio, hinf]
  · intro s
    cases hio : imageOpen file.contents with
    | error e => simp [hio]
    | ok pil =>
        cases hinf : m.infer (convertRGB pil) (25/100) (45/100) with
        | error e => simp [hio, hinf]
        | ok results =>
            cases hn : normalizeBoxes m.names (resultBoxes results) with
            | error e => simp [hio, hinf, hn]
            | ok preds => simp [hio, hinf, hn]

/-- C3 witness: an undecodable upload against the stub engine yields the
500 response embedding the decoder's failure text. -/
theorem decode_and_inference_failures_become_500_witness :
    detect_objects (some stubEngine) failOpen stubFile
      = (.httpError 500 ("Detection failed: " ++ "cannot identify image file"),
         [.decodeAttempt]) :=
  (decode_and_inference_failures_become_500 stubEngine failOpen stubFile
      "image/jpeg" rfl rfl).1 "cannot identify image file" rfl

/-- C6: every request that reaches inference (engine loaded, image content
type, decode succeeded) invokes the engine exactly once, with confidence
threshold 0.25 and IoU threshold 0.45 — the same static values for every
request, never derived from it. -/
theorem inference_called_once_with_fixed_thresholds :
    ∀ (m : YOLOModel) (imageOpen : Bytes → Except String PILImage)
      (file : UploadFile) (ct : String) (pil : PILImage),
      file.content_type = some ct →
      strStartsWith ct "image/" = true →
      imageOpen file.contents = .ok pil →
      (detect_objects (some m) imageOpen file).2
          = [.decodeAttempt, .engineCall (25/100) (45/100)]
      ∧ ((detect_objects (some m) imageOpen file).2.countP Event.isEngineCall) = 1 := by
  intro m imageOpen file ct pil hct hpre hio
  rw [detect_objects_image_ct m imageOpen file ct hct hpre]
  cases hinf : m.infer (convertRGB pil) (25/100) (45/100) with
  | error e =>
      refine ⟨?_, ?_⟩ <;> (simp only [hio, hinf]; try rfl)
  | ok results =>
      cases hn : normalizeBoxes m.names (resultBoxes results) with
      | error e =>
          refine ⟨?_, ?_⟩ <;> (simp only [hio, hinf, hn]; try rfl)
      | ok preds =>
          refine ⟨?_, ?_⟩ <;> (simp only [hio, hinf, hn]; try rfl)

/-- C6 witness: the stub request reaching inference produces a trace with
exactly one engine call, at thresholds 0.25 and 0.45. -/
theorem inference_called_once_with_fixed_thresholds_witness :
    (detect_objects (some stubEngine) stubOpen stubFile).2
        = [.decodeAttempt, .engineCall (25/100) (45/100)]
    ∧ ((detect_objects (some stubEngine) stubOpen stubFile).2.countP
          Event.isEngineCall) = 1 :=
  inference_called_once_with_fixed_thresholds stubEngine stubOpen stubFile
    "image/jpeg" { width := 640, height := 480, mode := "RGB" } rfl rfl rfl
